import Mathlib

/-!
# Vehicle-Hour-Tracker: verification of the spec against the code

Shallow embedding of the repository's data-access layer and helpers:
  * `src/utils.py` — validators, form validation, duration stats, advisor stats
  * `src/database_operations.py` — `DatabaseOperations` (SQLite branch):
    `insert_entry`, `get_entry_by_id`, `update_entry`, `delete_entry`
  * `src/database.py` — `DetailingDatabase`: `add_entry`, `get_recent_entries`,
    `get_summary_stats`
  * `src/database_config.py` / `src/app.py` — 60-day auto-purge at init

Python `str` is modelled as Lean `String`; `str.strip`/`str.upper` are
modelled explicitly (`pyStrip`, `pyUpper`) so that everything reduces in the
kernel.  Python floats (`hours`) are modelled as `ℚ`; SQLite timestamps as
`Int` (seconds), `DATE` values as `Nat` (days) — both compare in SQLite as
ISO-8601 strings, i.e. chronologically.  SQLite errors / backend failures are
modelled by an explicit `ok : Bool` flag on the operations that catch them.
-/

namespace VHT

/-- ASCII whitespace, the characters Python's `str.strip()` removes
(`\x0b` = vertical tab, `\x0c` = form feed). -/
def isPySpace (c : Char) : Bool :=
  c = ' ' || c = '\t' || c = '\n' || c = '\r' || c = '\x0b' || c = '\x0c'

/-- Python `str.strip()`: drop leading and trailing whitespace. -/
def pyStrip (s : String) : String :=
  ⟨((s.data.dropWhile isPySpace).reverse.dropWhile isPySpace).reverse⟩

/-- Python `str.upper()` (ASCII range, which is all the app uses). -/
def pyUpper (s : String) : String :=
  ⟨s.data.map Char.toUpper⟩

/-- Character class of the plate regex `[A-Z0-9\-\s]` in
`utils.validate_license_plate`. -/
def isPlateChar (c : Char) : Bool :=
  ('A' ≤ c && c ≤ 'Z') || ('0' ≤ c && c ≤ '9') || c = '-' || isPySpace c

/-- Model of `utils.validate_license_plate`: reject empty/whitespace-only input, then
match `^[A-Z0-9\-\s]{2,10}$` against the stripped, uppercased plate. -/
def validate_license_plate (plate : String) : Bool :=
  if plate = "" || (pyStrip plate).length = 0 then false
  else
    let p := pyStrip (pyUpper plate)
    2 ≤ p.length && p.length ≤ 10 && p.data.all isPlateChar

/-- Model of `utils.validate_hours`: `0 <= hours <= 24`. -/
def validate_hours (hours : ℚ) : Bool :=
  0 ≤ hours && hours ≤ 24

/-- Character class of the advisor regex `[A-Za-z\s'\-]` in
`utils.validate_advisor_name`. -/
def isAdvisorChar (c : Char) : Bool :=
  ('A' ≤ c && c ≤ 'Z') || ('a' ≤ c && c ≤ 'z') || isPySpace c || c = '\'' || c = '-'

/-- Model of `utils.validate_advisor_name`: reject empty or stripped-length `< 2`, then
match `^[A-Za-z\s'\-]{2,50}$` against the stripped name. -/
def validate_advisor_name (name : String) : Bool :=
  if name = "" || (pyStrip name).length < 2 then false
  else
    let n := pyStrip name
    2 ≤ n.length && n.length ≤ 50 && n.data.all isAdvisorChar

def plateError : String :=
  "License plate must be 2-10 characters long and contain only letters, numbers, spaces, and hyphens."

def detailTypeError : String :=
  "Please select a detail type."

def advisorError : String :=
  "Advisor name must be 2-50 characters long and contain only letters, spaces, apostrophes, and hyphens."

def locationError : String :=
  "Please select a location."

def hoursError : String :=
  "Hours must be between 0 and 24."

/-- Model of `utils.validate_form_data`: run all five field checks in order, appending
one message per failing check. -/
def validate_form_data (license_plate detail_type advisor location : String)
    (hours : ℚ) : List String :=
  (if !validate_license_plate license_plate then [plateError] else []) ++
  (if detail_type = "" then [detailTypeError] else []) ++
  (if !validate_advisor_name advisor then [advisorError] else []) ++
  (if location = "" then [locationError] else []) ++
  (if !validate_hours hours then [hoursError] else [])

/-- A row of the `entries` table (schema of `database_config.init_sqlite_db`,
used by `DatabaseOperations`). -/
structure Entry where
  id : Nat
  license_plate : String
  detail_type : String
  advisor : String
  hours : ℚ
  entry_date : Nat
  notes : String
  photos : String
  created_at : Int
deriving Repr, DecidableEq

/-- The SQLite store behind `DatabaseOperations`: the `entries` rows plus the
`AUTOINCREMENT` counter (every stored id is `< next_id`). -/
structure DB where
  entries : List Entry
  next_id : Nat
deriving Repr, DecidableEq

/-- Model of `DatabaseOperations.insert_entry` (SQLite branch): INSERT the normalized
fields — plate `upper().strip()`, advisor and notes `strip()` — and return
`cursor.lastrowid`.  `created_at` models the `CURRENT_TIMESTAMP` default. -/
def insert_entry (db : DB) (license_plate detail_type advisor : String)
    (hours : ℚ) (entry_date : Nat) (notes photos : String)
    (created_at : Int) : DB × Nat :=
  let e : Entry :=
    { id := db.next_id
      license_plate := pyStrip (pyUpper license_plate)
      detail_type := detail_type
      advisor := pyStrip advisor
      hours := hours
      entry_date := entry_date
      notes := pyStrip notes
      photos := photos
      created_at := created_at }
  (⟨db.entries ++ [e], db.next_id + 1⟩, db.next_id)

/-- Model of `DatabaseOperations.get_entry_by_id` (SQLite branch):
`SELECT * FROM entries WHERE id = ?` + `fetchone()`. -/
def get_entry_by_id (db : DB) (i : Nat) : Option Entry :=
  db.entries.find? (fun e => e.id = i)

/-- Modelled from the spec: the §7 propagation policy — validation errors are
collected by `validate_form_data` before any persistence call, and `create`
(`insert_entry`) is invoked only when no validation error was found.  No file
under `src/` composes `validate_form_data` with `insert_entry`; this glue is
the stated policy itself. -/
def submit_entry (db : DB) (lp dt adv loc : String) (hours : ℚ)
    (entry_date : Nat) (notes photos : String) (created_at : Int) :
    DB × Option Nat × List String :=
  let errors := validate_form_data lp dt adv loc hours
  if errors = [] then
    let r := insert_entry db lp dt adv hours entry_date notes photos created_at
    (r.1, some r.2, [])
  else
    (db, none, errors)

/-! ### Update and delete (`DatabaseOperations`, SQLite branch) -/

/-- Model of `DatabaseOperations.update_entry` (SQLite branch): `UPDATE entries SET
license_plate = ?, detail_type = ?, advisor = ?, hours = ?, entry_date = ?,
notes = ? WHERE id = ?`, normalizing plate/advisor/notes exactly as insert
does; `photos`, `created_at` and `id` are untouched.  Returns
`cursor.rowcount > 0`, i.e. whether any row matched the id. -/
def update_entry (db : DB) (i : Nat) (lp dt adv : String) (hours : ℚ)
    (entry_date : Nat) (notes : String) : DB × Bool :=
  (⟨db.entries.map (fun e =>
      if e.id = i then
        { e with
          license_plate := pyStrip (pyUpper lp)
          detail_type := dt
          advisor := pyStrip adv
          hours := hours
          entry_date := entry_date
          notes := pyStrip notes }
      else e), db.next_id⟩,
   db.entries.any (fun e => e.id = i))

/-- The photo directory: the set of existing files, plus the files whose
`os.remove` raises (modelling the environment-dependent failures the code
catches per file). -/
structure FS where
  files : List String
  failing : List String
deriving Repr, DecidableEq

/-- Python `entry[7].split(',')` on the comma-separated photo column. -/
def splitCommaAux : List Char → List Char → List (List Char)
  | [], acc => [acc.reverse]
  | c :: cs, acc =>
    if c = ',' then acc.reverse :: splitCommaAux cs []
    else splitCommaAux cs (c :: acc)

def split_photos (photos : String) : List String :=
  (splitCommaAux photos.data []).map (fun l => ⟨l⟩)

/-- One iteration of the photo-deletion loop in
`DatabaseOperations.delete_entry`: skip blank names; `os.path.exists` then
`os.remove` inside a `try` whose failure is only warned about. -/
def remove_photo (fs : FS) (p : String) : FS :=
  if pyStrip p ≠ "" then
    if pyStrip p ∈ fs.files then
      if pyStrip p ∈ fs.failing then fs
      else ⟨fs.files.erase (pyStrip p), fs.failing⟩
    else fs
  else fs

/-- Model of `DatabaseOperations.delete_entry` (SQLite branch): look the entry up, if
found and its photo column is non-empty delete each referenced file
best-effort, then `DELETE FROM entries WHERE id = ?` and return
`cursor.rowcount > 0`. -/
def delete_entry (db : DB) (fs : FS) (i : Nat) : DB × FS × Bool :=
  let fs' :=
    match get_entry_by_id db i with
    | some e =>
        if e.photos ≠ "" then (split_photos e.photos).foldl remove_photo fs
        else fs
    | none => fs
  (⟨db.entries.filter (fun e => ¬ e.id = i), db.next_id⟩, fs',
   db.entries.any (fun e => e.id = i))

/-! ### `database.py` (`DetailingDatabase`): schema with `location`, no
`photos`; `add_entry` returns a bool and `get_summary_stats` aggregates. -/

/-- A row of the `detailing_entries` table (`database.init_database`). -/
structure DEntry where
  id : Nat
  license_plate : String
  detail_type : String
  advisor : String
  location : String
  hours : ℚ
  entry_date : Nat
  created_at : Int
  notes : String
deriving Repr, DecidableEq

/-- The SQLite store behind `DetailingDatabase`. -/
structure DDB where
  entries : List DEntry
  next_id : Nat
deriving Repr, DecidableEq

/-- Model of `DetailingDatabase.add_entry`: on a healthy backend (`ok = true`) INSERT
the normalized record and return `True`; an `sqlite3.Error` (`ok = false`)
is caught, logged, and returned as `False` — the transaction having written
nothing. -/
def add_entry (db : DDB) (ok : Bool) (lp dt adv loc : String) (hours : ℚ)
    (entry_date : Nat) (notes : String) (created_at : Int) : DDB × Bool :=
  if ok then
    (⟨db.entries ++
        [{ id := db.next_id
           license_plate := pyStrip (pyUpper lp)
           detail_type := dt
           advisor := pyStrip adv
           location := loc
           hours := hours
           entry_date := entry_date
           created_at := created_at
           notes := pyStrip notes }], db.next_id + 1⟩, true)
  else
    (db, false)

/-- The SQL `ORDER BY entry_date DESC, created_at DESC` as a relation: `a` may come
before `b` iff `b`'s key is not larger. -/
def recent_r (a b : DEntry) : Prop :=
  b.entry_date < a.entry_date ∨
    (b.entry_date = a.entry_date ∧ b.created_at ≤ a.created_at)

instance : DecidableRel recent_r := fun a b => by
  unfold recent_r
  infer_instance

instance : IsTotal DEntry recent_r :=
  ⟨by
    intro a b
    rcases lt_trichotomy a.entry_date b.entry_date with h | h | h
    · exact Or.inr (Or.inl h)
    · rcases le_total b.created_at a.created_at with hc | hc
      · exact Or.inl (Or.inr ⟨h.symm, hc⟩)
      · exact Or.inr (Or.inr ⟨h, hc⟩)
    · exact Or.inl (Or.inl h)⟩

instance : IsTrans DEntry recent_r :=
  ⟨by
    intro a b c hab hbc
    rcases hab with h1 | ⟨h1, h1'⟩ <;> rcases hbc with h2 | ⟨h2, h2'⟩
    · exact Or.inl (h2.trans h1)
    · exact Or.inl (h2 ▸ h1)
    · exact Or.inl (h1 ▸ h2)
    · exact Or.inr ⟨h2.trans h1, h2'.trans h1'⟩⟩

/-- Model of `DetailingDatabase.get_recent_entries`: `SELECT … ORDER BY entry_date
DESC, created_at DESC LIMIT ?`; on an `sqlite3.Error` the code returns `[]`. -/
def get_recent_entries (db : DDB) (ok : Bool) (limit : Nat) : List DEntry :=
  if ok then (List.insertionSort recent_r db.entries).take limit else []

/-- The record returned by `DetailingDatabase.get_summary_stats`. -/
structure SummaryStats where
  total_entries : Nat
  total_hours : ℚ
  today_entries : Nat
  today_hours : ℚ
  most_common_type : String
deriving Repr, DecidableEq

/-- The fallback `get_summary_stats` returns when an `sqlite3.Error` is
caught. -/
def defaultSummaryStats : SummaryStats :=
  { total_entries := 0
    total_hours := 0
    today_entries := 0
    today_hours := 0
    most_common_type := "N/A" }

/-- Python's `round(x, 2)` (exact tie direction immaterial to the claims). -/
def round2 (x : ℚ) : ℚ :=
  ((⌊x * 100 + 1 / 2⌋ : ℤ) : ℚ) / 100

/-- A `SELECT COUNT(*) … WHERE detail_type = t`-style count. -/
def countType (l : List DEntry) (t : String) : Nat :=
  (l.filter (fun e => e.detail_type = t)).length

/-- The `GROUP BY detail_type ORDER BY count DESC LIMIT 1` pick, `"N/A"` on an empty
table (SQL does not fix the representative among tied counts; this picks a
deterministic one). -/
def mostCommonType (l : List DEntry) : String :=
  match (l.map DEntry.detail_type).dedup with
  | [] => "N/A"
  | t :: ts =>
      ts.foldl (fun best t2 => if countType l best < countType l t2 then t2 else best) t

/-- Model of `DetailingDatabase.get_summary_stats`: aggregates over the whole table,
`SUM(…) or 0` for the empty table, `round(…, 2)` on the hour totals; on an
`sqlite3.Error` (`ok = false`) the caught handler returns
`defaultSummaryStats`. -/
def get_summary_stats (db : DDB) (ok : Bool) (today : Nat) : SummaryStats :=
  if ok then
    { total_entries := db.entries.length
      total_hours := round2 ((db.entries.map DEntry.hours).sum)
      today_entries := (db.entries.filter (fun e => e.entry_date = today)).length
      today_hours :=
        round2 (((db.entries.filter (fun e => e.entry_date = today)).map
          DEntry.hours).sum)
      most_common_type := mostCommonType db.entries }
  else
    defaultSummaryStats

/-- The 60-day auto-purge run by `app.init_db` / `database_config.
init_sqlite_db`: `DELETE FROM entries WHERE created_at < datetime('now',
'-60 days')` — `created_at` in seconds, 60 days = 5184000 seconds. -/
def purge_old_entries (l : List Entry) (now : Int) : List Entry :=
  l.filter (fun e => ¬ (e.created_at < now - 60 * 86400))

/-- The record returned by `utils.calculate_duration_stats`. -/
structure DurationStats where
  min : ℚ
  max : ℚ
  avg : ℚ
  total : ℚ
deriving Repr, DecidableEq

/-- Python `min` over a list (the code only applies it to non-empty input). -/
def listMin : List ℚ → ℚ
  | [] => 0
  | [x] => x
  | x :: y :: xs => Min.min x (listMin (y :: xs))

/-- Python `max` over a list (the code only applies it to non-empty input). -/
def listMax : List ℚ → ℚ
  | [] => 0
  | [x] => x
  | x :: y :: xs => Max.max x (listMax (y :: xs))

/-- Model of `utils.calculate_duration_stats`: zeros on the empty list, otherwise
min/max/avg/total over the `hours` column; the only division is by the
(non-zero) length. -/
def calculate_duration_stats (entries : List Entry) : DurationStats :=
  if entries = [] then ⟨0, 0, 0, 0⟩
  else
    let hours_list := entries.map Entry.hours
    { min := listMin hours_list
      max := listMax hours_list
      avg := hours_list.sum / (hours_list.length : ℚ)
      total := hours_list.sum }

/-- The per-advisor accumulator `utils.get_advisor_stats` builds (its
`detail_types` Python `set` modelled as a duplicate-free list). -/
structure AdvisorAcc where
  entries : Nat
  total_hours : ℚ
  detail_types : List String
deriving Repr, DecidableEq

/-- The loop body of `utils.get_advisor_stats` applied to the accumulator of
one advisor: `entries += 1`, `total_hours += hours`, `detail_types.add`. -/
def updateAcc (a : AdvisorAcc) (e : Entry) : AdvisorAcc :=
  { entries := a.entries + 1
    total_hours := a.total_hours + e.hours
    detail_types :=
      if e.detail_type ∈ a.detail_types then a.detail_types
      else a.detail_types ++ [e.detail_type] }

/-- One iteration of `utils.get_advisor_stats`: initialize the advisor's
slot if absent, then update it.  The dict is modelled as an association
list keyed by advisor (insertion order, unique keys). -/
def addEntryToStats (m : List (String × AdvisorAcc)) (e : Entry) :
    List (String × AdvisorAcc) :=
  if m.any (fun p => p.1 = e.advisor) then
    m.map (fun p => if p.1 = e.advisor then (p.1, updateAcc p.2 e) else p)
  else
    m ++ [(e.advisor, updateAcc ⟨0, 0, []⟩ e)]

/-- The record `utils.get_advisor_stats` exposes after replacing the
`detail_types` set by its size. -/
structure AdvisorStats where
  entries : Nat
  total_hours : ℚ
  unique_detail_types : Nat
deriving Repr, DecidableEq

/-- Model of `utils.get_advisor_stats`: fold the entries into per-advisor stats, then
convert each `detail_types` set into its count. -/
def get_advisor_stats (l : List Entry) : List (String × AdvisorStats) :=
  (l.foldl addEntryToStats []).map
    (fun p => (p.1, ⟨p.2.entries, p.2.total_hours, p.2.detail_types.length⟩))

/-- Total of the per-advisor `entries` counters. -/
def statsSumEntries (m : List (String × AdvisorStats)) : Nat :=
  (m.map (fun p => p.2.entries)).sum

/-- Total of the per-advisor `total_hours` values. -/
def statsSumHours (m : List (String × AdvisorStats)) : ℚ :=
  (m.map (fun p => p.2.total_hours)).sum

/-- Total of the `entries` counters of an accumulator map. -/
def accSumEntries (m : List (String × AdvisorAcc)) : Nat :=
  (m.map (fun p => p.2.entries)).sum

/-- Total of the `total_hours` values of an accumulator map. -/
def accSumHours (m : List (String × AdvisorAcc)) : ℚ :=
  (m.map (fun p => p.2.total_hours)).sum

/-! ### C3 witness -/

/-- A concrete stored record referencing two photo files. -/
def sampleEntry : Entry :=
  { id := 1
    license_plate := "ABC-123"
    detail_type := "Full Detail"
    advisor := "Jane Doe"
    hours := 2
    entry_date := 20240601
    notes := ""
    photos := "p1.jpg,p2.jpg"
    created_at := 100 }

/-- A one-row store holding `sampleEntry`. -/
def sampleDB : DB := ⟨[sampleEntry], 2⟩

/-- A photo directory holding the two referenced files plus an unrelated
one, with `p2.jpg` failing to delete. -/
def sampleFS : FS := ⟨["p1.jpg", "p2.jpg", "other.jpg"], ["p2.jpg"]⟩

/-! ### C6: backend failures -/

/-- A concrete `detailing_entries` row. -/
def sampleDEntry : DEntry :=
  { id := 1
    license_plate := "ABC-123"
    detail_type := "Full Detail"
    advisor := "Jane Doe"
    location := "Bay 1"
    hours := 2
    entry_date := 20240601
    created_at := 100
    notes := "" }

/-! ### C1: create / getById round trip -/

/-- C1: for every store whose ids respect the `AUTOINCREMENT` invariant,
`insert_entry` followed by `get_entry_by_id` on the returned id yields a
record whose fields equal the normalized input: the license plate
uppercased and stripped, advisor and notes stripped, and every other field
unchanged. -/
theorem create_getById_roundtrip (db : DB)
    (hfresh : ∀ e ∈ db.entries, e.id < db.next_id)
    (lp dt adv : String) (h : ℚ) (ed : Nat) (notes photos : String)
    (ca : Int) :
    get_entry_by_id (insert_entry db lp dt adv h ed notes photos ca).1
        (insert_entry db lp dt adv h ed notes photos ca).2 =
      some { id := db.next_id
             license_plate := pyStrip (pyUpper lp)
             detail_type := dt
             advisor := pyStrip adv
             hours := h
             entry_date := ed
             notes := pyStrip notes
             photos := photos
             created_at := ca } := by
  have hnone : db.entries.find? (fun e => e.id = db.next_id) = none := by
    rw [List.find?_eq_none]
    intro e he
    simp only [decide_eq_true_eq]
    exact Nat.ne_of_lt (hfresh e he)
  simp [get_entry_by_id, insert_entry, List.find?_append, hnone]

/-- Witness for C1 at a concrete empty store and concrete fields. -/
theorem create_getById_roundtrip_witness :
    get_entry_by_id
        (insert_entry ⟨[], 1⟩ " abc-123 " "Full Detail" " Jane Doe " (5/2)
          20240601 " light scratches " "p1.jpg" 100).1
        (insert_entry ⟨[], 1⟩ " abc-123 " "Full Detail" " Jane Doe " (5/2)
          20240601 " light scratches " "p1.jpg" 100).2 =
      some { id := 1
             license_plate := pyStrip (pyUpper " abc-123 ")
             detail_type := "Full Detail"
             advisor := pyStrip " Jane Doe "
             hours := 5/2
             entry_date := 20240601
             notes := pyStrip " light scratches "
             photos := "p1.jpg"
             created_at := 100 } :=
  create_getById_roundtrip ⟨[], 1⟩ (by simp) " abc-123 " "Full Detail"
    " Jane Doe " (5/2) 20240601 " light scratches " "p1.jpg" 100

/-! ### C2: hours validation bounds -/

/-- C2 counterexample: `hours = 0` lies outside `(0, 24]`, yet
`validate_form_data` reports no hours error (the code checks `0 <= hours`,
not `0 < hours`), and under the propagation policy `create` IS invoked:
`submit_entry` inserts the record and returns its id. -/
theorem hours_zero_accepted_counterexample :
    ¬ (0 < (0 : ℚ) ∧ (0 : ℚ) ≤ 24) ∧
    hoursError ∉ validate_form_data "ABC-123" "Full Detail" "Jane Doe" "Bay 1" 0 ∧
    (submit_entry ⟨[], 1⟩ "ABC-123" "Full Detail" "Jane Doe" "Bay 1" 0
        20240601 "" "" 100).2.1 = some 1 := by
  refine ⟨by norm_num, by decide, by decide⟩

/-- C2 (amended): for every `hours` value outside `[0, 24]` — the interval
the code actually enforces — `validate_form_data` returns a list containing
the hours error message, and `submit_entry` does not invoke `insert_entry`:
the store is unchanged, no id is returned, and the errors are surfaced. -/
theorem validateAll_hours_out_of_range (db : DB) (lp dt adv loc : String)
    (h : ℚ) (ed : Nat) (notes photos : String) (ca : Int)
    (hh : h < 0 ∨ 24 < h) :
    hoursError ∈ validate_form_data lp dt adv loc h ∧
    submit_entry db lp dt adv loc h ed notes photos ca =
      (db, none, validate_form_data lp dt adv loc h) := by
  have hv : validate_hours h = false := by
    rcases hh with hh | hh
    · simp [validate_hours, not_le.mpr hh]
    · simp [validate_hours, not_le.mpr hh]
  have hmem : hoursError ∈ validate_form_data lp dt adv loc h := by
    simp [validate_form_data, hv]
  refine ⟨hmem, ?_⟩
  have hne : validate_form_data lp dt adv loc h ≠ [] := by
    intro he
    rw [he] at hmem
    exact List.not_mem_nil _ hmem
  simp [submit_entry, hne]

/-- Witness for C2 (amended) at `hours = 25`. -/
theorem validateAll_hours_out_of_range_witness :
    hoursError ∈ validate_form_data "ABC-123" "Full Detail" "Jane Doe" "Bay 1" 25 ∧
    submit_entry ⟨[], 1⟩ "ABC-123" "Full Detail" "Jane Doe" "Bay 1" 25
        20240601 "" "" 100 =
      (⟨[], 1⟩, none,
        validate_form_data "ABC-123" "Full Detail" "Jane Doe" "Bay 1" 25) :=
  validateAll_hours_out_of_range ⟨[], 1⟩ "ABC-123" "Full Detail" "Jane Doe"
    "Bay 1" 25 20240601 "" "" 100 (Or.inr (by norm_num))

/-! ### C7: validateAll collects every failing check -/

lemma plateError_ne_detailTypeError : plateError ≠ detailTypeError := by decide

lemma plateError_ne_advisorError : plateError ≠ advisorError := by decide

lemma plateError_ne_locationError : plateError ≠ locationError := by decide

lemma plateError_ne_hoursError : plateError ≠ hoursError := by decide

lemma detailTypeError_ne_advisorError : detailTypeError ≠ advisorError := by decide

lemma detailTypeError_ne_locationError : detailTypeError ≠ locationError := by decide

lemma detailTypeError_ne_hoursError : detailTypeError ≠ hoursError := by decide

lemma advisorError_ne_locationError : advisorError ≠ locationError := by decide

lemma advisorError_ne_hoursError : advisorError ≠ hoursError := by decide

lemma locationError_ne_hoursError : locationError ≠ hoursError := by decide

/-- C7: `validate_form_data` runs every field check and collects the error
message of each failing check: the output length equals the number of
failing checks, and each specific message is present exactly when its check
fails. -/
theorem validateAll_collects_all_failures (lp dt adv loc : String) (h : ℚ) :
    (validate_form_data lp dt adv loc h).length =
      ((if validate_license_plate lp then 0 else 1) +
       (if dt = "" then 1 else 0) +
       (if validate_advisor_name adv then 0 else 1) +
       (if loc = "" then 1 else 0) +
       (if validate_hours h then 0 else 1)) ∧
    (plateError ∈ validate_form_data lp dt adv loc h ↔
      validate_license_plate lp = false) ∧
    (detailTypeError ∈ validate_form_data lp dt adv loc h ↔ dt = "") ∧
    (advisorError ∈ validate_form_data lp dt adv loc h ↔
      validate_advisor_name adv = false) ∧
    (locationError ∈ validate_form_data lp dt adv loc h ↔ loc = "") ∧
    (hoursError ∈ validate_form_data lp dt adv loc h ↔
      validate_hours h = false) := by
  by_cases h1 : validate_license_plate lp <;>
    by_cases h2 : dt = "" <;>
      by_cases h3 : validate_advisor_name adv <;>
        by_cases h4 : loc = "" <;>
          by_cases h5 : validate_hours h <;>
            simp_all [validate_form_data,
              plateError_ne_detailTypeError, plateError_ne_advisorError,
              plateError_ne_locationError, plateError_ne_hoursError,
              detailTypeError_ne_advisorError, detailTypeError_ne_locationError,
              detailTypeError_ne_hoursError, advisorError_ne_locationError,
              advisorError_ne_hoursError, locationError_ne_hoursError,
              plateError_ne_detailTypeError.symm, plateError_ne_advisorError.symm,
              plateError_ne_locationError.symm, plateError_ne_hoursError.symm,
              detailTypeError_ne_advisorError.symm,
              detailTypeError_ne_locationError.symm,
              detailTypeError_ne_hoursError.symm,
              advisorError_ne_locationError.symm, advisorError_ne_hoursError.symm,
              locationError_ne_hoursError.symm]

/-! ### C4: update on a nonexistent id is a no-op returning false -/

/-- C4: for every store and every id not present in it, `update_entry`
returns `false` and leaves the table exactly as it was: same row count and
every row's fields unchanged. -/
theorem update_nonexistent_id_noop (db : DB) (i : Nat) (lp dt adv : String)
    (hours : ℚ) (ed : Nat) (notes : String)
    (habs : ∀ e ∈ db.entries, e.id ≠ i) :
    update_entry db i lp dt adv hours ed notes = (db, false) ∧
    (update_entry db i lp dt adv hours ed notes).1.entries.length =
      db.entries.length := by
  have hmapgen : ∀ l : List Entry, (∀ e ∈ l, e.id ≠ i) →
      l.map (fun e =>
        if e.id = i then
          { e with
            license_plate := pyStrip (pyUpper lp)
            detail_type := dt
            advisor := pyStrip adv
            hours := hours
            entry_date := ed
            notes := pyStrip notes }
        else e) = l := by
    intro l
    induction l with
    | nil => intro _; rfl
    | cons a t ih =>
        intro hl
        simp only [List.map_cons, List.cons.injEq]
        exact ⟨by rw [if_neg (hl a (List.mem_cons_self a t))],
               ih (fun e he => hl e (List.mem_cons_of_mem a he))⟩
  have hmap := hmapgen db.entries habs
  have hany : db.entries.any (fun e => e.id = i) = false := by
    rw [List.any_eq_false]
    intro e he
    simp only [decide_eq_true_eq]
    exact habs e he
  constructor
  · simp [update_entry, hmap, hany]
  · simp [update_entry, hmap]

/-- Witness for C4: updating id 2 in a one-row store holding only id 1. -/
theorem update_nonexistent_id_noop_witness :
    update_entry
        ⟨[{ id := 1, license_plate := "ABC-123", detail_type := "Basic Wash",
            advisor := "Jane Doe", hours := 2, entry_date := 20240601,
            notes := "", photos := "", created_at := 100 }], 2⟩
        2 "XYZ-9" "Polish" "Sam Lee" 3 20240701 "redo" =
      (⟨[{ id := 1, license_plate := "ABC-123", detail_type := "Basic Wash",
           advisor := "Jane Doe", hours := 2, entry_date := 20240601,
           notes := "", photos := "", created_at := 100 }], 2⟩, false) ∧
    (update_entry
        ⟨[{ id := 1, license_plate := "ABC-123", detail_type := "Basic Wash",
            advisor := "Jane Doe", hours := 2, entry_date := 20240601,
            notes := "", photos := "", created_at := 100 }], 2⟩
        2 "XYZ-9" "Polish" "Sam Lee" 3 20240701 "redo").1.entries.length =
      1 :=
  update_nonexistent_id_noop _ 2 "XYZ-9" "Polish" "Sam Lee" 3 20240701 "redo"
    (by decide)

/-! ### C3: delete removes the row and its photo files -/

lemma remove_photo_files_subset (fs : FS) (p : String) :
    (remove_photo fs p).files ⊆ fs.files := by
  unfold remove_photo
  split_ifs <;> first
    | exact fun x hx => hx
    | exact fun x hx => List.mem_of_mem_erase hx

lemma foldl_remove_photo_files_subset (ps : List String) (fs : FS) :
    (ps.foldl remove_photo fs).files ⊆ fs.files := by
  induction ps generalizing fs with
  | nil => exact fun x hx => hx
  | cons q qs ih =>
      exact fun x hx => remove_photo_files_subset fs q (ih (remove_photo fs q) hx)

lemma remove_photo_failing (fs : FS) (p : String) :
    (remove_photo fs p).failing = fs.failing := by
  unfold remove_photo
  split_ifs <;> rfl

lemma foldl_remove_photo_failing (ps : List String) (fs : FS) :
    (ps.foldl remove_photo fs).failing = fs.failing := by
  induction ps generalizing fs with
  | nil => rfl
  | cons q qs ih => rw [List.foldl_cons, ih, remove_photo_failing]

lemma remove_photo_nodup (fs : FS) (p : String) (h : fs.files.Nodup) :
    (remove_photo fs p).files.Nodup := by
  unfold remove_photo
  split_ifs <;> first
    | exact h
    | exact h.erase _

lemma foldl_remove_photo_nodup (ps : List String) (fs : FS)
    (h : fs.files.Nodup) : (ps.foldl remove_photo fs).files.Nodup := by
  induction ps generalizing fs with
  | nil => exact h
  | cons q qs ih => exact ih _ (remove_photo_nodup fs q h)

/-- Each non-blank, non-failing photo name referenced in the list is absent
from the directory after the deletion loop. -/
lemma foldl_remove_photo_removes (ps : List String) (fs : FS) (p : String)
    (hp : p ∈ ps) (hne : pyStrip p ≠ "") (hfail : pyStrip p ∉ fs.failing)
    (hnd : fs.files.Nodup) :
    pyStrip p ∉ (ps.foldl remove_photo fs).files := by
  induction ps generalizing fs with
  | nil => exact absurd hp (List.not_mem_nil p)
  | cons q qs ih =>
      rcases List.mem_cons.mp hp with rfl | hp'
      · -- the loop reaches `p` first; afterwards its file is gone and the
        -- rest of the fold only ever shrinks the directory
        intro habs
        have habs' := foldl_remove_photo_files_subset qs (remove_photo fs p) habs
        unfold remove_photo at habs'
        rw [if_pos hne] at habs'
        by_cases hin : pyStrip p ∈ fs.files
        · rw [if_pos hin, if_neg hfail] at habs'
          exact (by simp [hnd.mem_erase_iff] :
            pyStrip p ∉ fs.files.erase (pyStrip p)) habs'
        · rw [if_neg hin] at habs'
          exact hin habs'
      · refine ih (remove_photo fs q) hp' ?_ (remove_photo_nodup fs q hnd)
        rw [remove_photo_failing]
        exact hfail

/-- Files not referenced by the record survive the deletion loop. -/
lemma foldl_remove_photo_preserves (ps : List String) (fs : FS) (x : String)
    (hx : x ∈ fs.files) (hnr : ∀ p ∈ ps, pyStrip p ≠ x) :
    x ∈ (ps.foldl remove_photo fs).files := by
  induction ps generalizing fs with
  | nil => exact hx
  | cons q qs ih =>
      refine ih (remove_photo fs q) ?_ (fun p hp => hnr p (List.mem_cons_of_mem q hp))
      unfold remove_photo
      split_ifs <;> first
        | exact hx
        | exact (List.mem_erase_of_ne
            (fun h => hnr q (List.mem_cons_self q qs) h.symm)).mpr hx

/-- With unique ids, `find?` locates exactly the stored entry with that id. -/
lemma find?_of_nodup_ids (l : List Entry) (e : Entry) (i : Nat)
    (hnd : (l.map Entry.id).Nodup) (he : e ∈ l) (hi : e.id = i) :
    l.find? (fun x => x.id = i) = some e := by
  induction l with
  | nil => exact absurd he (List.not_mem_nil e)
  | cons a t ih =>
      rcases List.mem_cons.mp he with rfl | he'
      · simp [List.find?_cons, hi]
      · by_cases ha : a.id = i
        · exfalso
          have hidmem : a.id ∈ t.map Entry.id :=
            List.mem_map.mpr ⟨e, he', by rw [hi, ha]⟩
          exact (List.nodup_cons.mp hnd).1 hidmem
        · rw [List.find?_cons_of_neg _ (by simp [ha])]
          exact ih (List.nodup_cons.mp hnd).2 he'

/-- On any id no stored entry carries, `delete_entry` is a no-op returning
`false`. -/
lemma delete_absent (db : DB) (fs : FS) (j : Nat)
    (hj : ∀ x ∈ db.entries, x.id ≠ j) :
    delete_entry db fs j = (db, fs, false) := by
  have hfind : get_entry_by_id db j = none := by
    unfold get_entry_by_id
    rw [List.find?_eq_none]
    intro x hx
    simp only [decide_eq_true_eq]
    exact hj x hx
  have hany : db.entries.any (fun x => x.id = j) = false := by
    rw [List.any_eq_false]
    intro x hx
    simp only [decide_eq_true_eq]
    exact hj x hx
  have hfilt : db.entries.filter (fun e => ¬ e.id = j) = db.entries := by
    rw [List.filter_eq_self]
    intro x hx
    simpa using hj x hx
  simp only [delete_entry, hfind, hany, hfilt]

/-- C3: deleting an existing id returns `true`, removes exactly that row,
removes every non-blank photo file its `photos` column references whose
removal does not fail (failures are non-fatal: the row is still removed),
leaves unreferenced files in place, and a second delete of the same id — or
a delete of any absent id — returns `false` and changes nothing. -/
theorem delete_existing_and_absent (db : DB) (fs : FS) (e : Entry) (i : Nat)
    (hnd : (db.entries.map Entry.id).Nodup) (he : e ∈ db.entries)
    (hi : e.id = i) (hfsnd : fs.files.Nodup) :
    (delete_entry db fs i).2.2 = true ∧
    (∀ x : Entry, x ∈ (delete_entry db fs i).1.entries ↔
      (x ∈ db.entries ∧ x.id ≠ i)) ∧
    (∀ p ∈ split_photos e.photos, pyStrip p ≠ "" →
      pyStrip p ∉ fs.failing → pyStrip p ∉ (delete_entry db fs i).2.1.files) ∧
    (∀ x ∈ fs.files, (∀ p ∈ split_photos e.photos, pyStrip p ≠ x) →
      x ∈ (delete_entry db fs i).2.1.files) ∧
    (delete_entry (delete_entry db fs i).1 (delete_entry db fs i).2.1 i =
      ((delete_entry db fs i).1, (delete_entry db fs i).2.1, false)) ∧
    (∀ j : Nat, (∀ x ∈ db.entries, x.id ≠ j) →
      delete_entry db fs j = (db, fs, false)) := by
  have hfind : get_entry_by_id db i = some e :=
    find?_of_nodup_ids db.entries e i hnd he hi
  have hany : db.entries.any (fun x => x.id = i) = true :=
    List.any_eq_true.mpr ⟨e, he, by simp [hi]⟩
  refine ⟨?_, ?_, ?_, ?_, ?_, ?_⟩
  · simp [delete_entry, hany]
  · intro x
    simp [delete_entry, List.mem_filter]
  · intro p hp hne hfail
    simp only [delete_entry, hfind]
    by_cases hph : e.photos = ""
    · -- blank photo column: `split_photos ""` holds only the blank name
      exfalso
      rw [hph] at hp
      have hsplit : split_photos "" = [""] := by decide
      rw [hsplit] at hp
      have hpe : p = "" := by simpa using hp
      rw [hpe] at hne
      exact hne (by decide)
    · rw [if_pos hph]
      exact foldl_remove_photo_removes _ fs p hp hne hfail hfsnd
  · intro x hx hnr
    simp only [delete_entry, hfind]
    by_cases hph : e.photos = ""
    · rw [if_neg (by simp [hph])]
      exact hx
    · rw [if_pos hph]
      exact foldl_remove_photo_preserves _ fs x hx hnr
  · refine delete_absent _ _ i ?_
    intro x hx
    simp only [delete_entry] at hx
    simpa using (List.mem_filter.mp hx).2
  · intro j hj
    exact delete_absent db fs j hj

/-- Witness for C3 at `sampleDB`/`sampleFS`: deleting id 1. -/
theorem delete_existing_and_absent_witness :
    (delete_entry sampleDB sampleFS 1).2.2 = true ∧
    (∀ x : Entry, x ∈ (delete_entry sampleDB sampleFS 1).1.entries ↔
      (x ∈ sampleDB.entries ∧ x.id ≠ 1)) ∧
    (∀ p ∈ split_photos sampleEntry.photos, pyStrip p ≠ "" →
      pyStrip p ∉ sampleFS.failing →
      pyStrip p ∉ (delete_entry sampleDB sampleFS 1).2.1.files) ∧
    (∀ x ∈ sampleFS.files,
      (∀ p ∈ split_photos sampleEntry.photos, pyStrip p ≠ x) →
      x ∈ (delete_entry sampleDB sampleFS 1).2.1.files) ∧
    (delete_entry (delete_entry sampleDB sampleFS 1).1
        (delete_entry sampleDB sampleFS 1).2.1 1 =
      ((delete_entry sampleDB sampleFS 1).1,
        (delete_entry sampleDB sampleFS 1).2.1, false)) ∧
    (∀ j : Nat, (∀ x ∈ sampleDB.entries, x.id ≠ j) →
      delete_entry sampleDB sampleFS j = (sampleDB, sampleFS, false)) :=
  delete_existing_and_absent sampleDB sampleFS sampleEntry 1
    (by simp [sampleDB, sampleEntry])
    (by simp [sampleDB])
    rfl
    (by decide)

/-! ### C5: listRecent is capped and sorted -/

/-- C5: for every store state, backend health and limit `n`,
`get_recent_entries` returns at most `n` records, pairwise ordered by
`entry_date` descending with ties broken by `created_at` descending. -/
theorem listRecent_sorted_and_capped (db : DDB) (ok : Bool) (limit : Nat) :
    (get_recent_entries db ok limit).length ≤ limit ∧
    (get_recent_entries db ok limit).Pairwise (fun a b =>
      b.entry_date < a.entry_date ∨
        (b.entry_date = a.entry_date ∧ b.created_at ≤ a.created_at)) := by
  unfold get_recent_entries
  split_ifs
  · constructor
    · rw [List.length_take]
      exact min_le_left _ _
    · have hp : (List.insertionSort recent_r db.entries).Pairwise recent_r :=
        List.sorted_insertionSort recent_r db.entries
      exact (hp.sublist (List.take_sublist limit _)).imp (fun h => h)
  · simp

lemma round2_zero : round2 0 = 0 := by
  unfold round2
  norm_num

/-- C6 counterexample: a backend failure during `get_summary_stats` on a
one-row store yields exactly the value a healthy call returns on an empty
store — the error is an ordinary success value, not distinguishable from a
successful outcome. -/
theorem backend_error_indistinguishable_counterexample :
    get_summary_stats ⟨[sampleDEntry], 2⟩ false 20240601 =
      get_summary_stats ⟨[], 1⟩ true 20240601 := by
  have h2 : get_summary_stats ⟨[], 1⟩ true 20240601 = defaultSummaryStats := by
    simp [get_summary_stats, defaultSummaryStats, mostCommonType, round2_zero]
  rw [h2]
  rfl

/-- C6 (amended): backend failures are caught at the Repository boundary
and returned as in-band values, never raw exceptions: `add_entry` returns
`false` on failure (distinguishable from its success value `true`) and
writes nothing, `get_summary_stats` returns the default record on failure
(which coincides with its success value on an empty store), and `add_entry`
never partially writes — the store is either unchanged or extended by the
one complete record. -/
theorem backend_error_surfaced_in_band (db : DDB) (ok : Bool)
    (lp dt adv loc : String) (hours : ℚ) (ed : Nat) (notes : String)
    (ca : Int) (today : Nat) :
    add_entry db false lp dt adv loc hours ed notes ca = (db, false) ∧
    (add_entry db true lp dt adv loc hours ed notes ca).2 = true ∧
    get_summary_stats db false today = defaultSummaryStats ∧
    ((add_entry db ok lp dt adv loc hours ed notes ca).1.entries =
        db.entries ∨
      (add_entry db ok lp dt adv loc hours ed notes ca).1.entries =
        db.entries ++
          [{ id := db.next_id
             license_plate := pyStrip (pyUpper lp)
             detail_type := dt
             advisor := pyStrip adv
             location := loc
             hours := hours
             entry_date := ed
             created_at := ca
             notes := pyStrip notes }]) := by
  refine ⟨rfl, rfl, rfl, ?_⟩
  cases ok
  · exact Or.inl rfl
  · exact Or.inr rfl

/-! ### C8: the 60-day retention purge -/

/-- C8: the initialization purge deletes exactly the records whose
`created_at` lies strictly before `now - 60` days, keeps every record
within the last 60 days (with all its fields, in the original order), and
nothing else. -/
theorem purge_retention_boundary (l : List Entry) (now : Int) :
    (∀ e : Entry, e ∈ purge_old_entries l now ↔
      (e ∈ l ∧ now - 60 * 86400 ≤ e.created_at)) ∧
    List.Sublist (purge_old_entries l now) l := by
  constructor
  · intro e
    simp [purge_old_entries, List.mem_filter, not_lt]
  · exact List.filter_sublist l

/-! ### C9: duration stats are total and never divide by zero -/

/-- C9: `calculate_duration_stats` is total: on `[]` it returns the all-zero
record rather than failing, and on every non-empty input the division
computing `avg` has the non-zero length as its denominator. -/
theorem durationStats_total_no_div_by_zero (entries : List Entry)
    (hne : entries ≠ []) :
    calculate_duration_stats [] = ⟨0, 0, 0, 0⟩ ∧
    ((entries.map Entry.hours).length : ℚ) ≠ 0 ∧
    (calculate_duration_stats entries).avg =
      (entries.map Entry.hours).sum / ((entries.map Entry.hours).length : ℚ) := by
  refine ⟨rfl, ?_, ?_⟩
  · rw [List.length_map]
    exact_mod_cast (List.length_pos.mpr hne).ne'
  · simp [calculate_duration_stats, hne]

/-- Witness for C9 on a one-entry list. -/
theorem durationStats_total_no_div_by_zero_witness :
    calculate_duration_stats [] = ⟨0, 0, 0, 0⟩ ∧
    (([{ id := 1, license_plate := "ABC-123", detail_type := "Full Detail",
         advisor := "Jane Doe", hours := 2, entry_date := 20240601,
         notes := "", photos := "", created_at := 100 }].map
        Entry.hours).length : ℚ) ≠ 0 ∧
    (calculate_duration_stats
        [{ id := 1, license_plate := "ABC-123", detail_type := "Full Detail",
           advisor := "Jane Doe", hours := 2, entry_date := 20240601,
           notes := "", photos := "", created_at := 100 }]).avg =
      ([{ id := 1, license_plate := "ABC-123", detail_type := "Full Detail",
          advisor := "Jane Doe", hours := 2, entry_date := 20240601,
          notes := "", photos := "", created_at := 100 }].map
        Entry.hours).sum /
      (([{ id := 1, license_plate := "ABC-123", detail_type := "Full Detail",
           advisor := "Jane Doe", hours := 2, entry_date := 20240601,
           notes := "", photos := "", created_at := 100 }].map
        Entry.hours).length : ℚ) :=
  durationStats_total_no_div_by_zero
    [{ id := 1, license_plate := "ABC-123", detail_type := "Full Detail",
       advisor := "Jane Doe", hours := 2, entry_date := 20240601,
       notes := "", photos := "", created_at := 100 }] (by decide)

/-! ### C10: advisor stats partition the input -/

lemma map_update_no_match (t : List (String × AdvisorAcc)) (e : Entry)
    (h : ∀ p ∈ t, p.1 ≠ e.advisor) :
    t.map (fun p => if p.1 = e.advisor then (p.1, updateAcc p.2 e) else p) =
      t := by
  induction t with
  | nil => rfl
  | cons a t ih =>
      simp only [List.map_cons, List.cons.injEq]
      exact ⟨if_neg (h a (List.mem_cons_self a t)),
             ih (fun p hp => h p (List.mem_cons_of_mem a hp))⟩

lemma map_fst_update (t : List (String × AdvisorAcc)) (e : Entry) :
    (t.map (fun p =>
        if p.1 = e.advisor then (p.1, updateAcc p.2 e) else p)).map Prod.fst =
      t.map Prod.fst := by
  induction t with
  | nil => rfl
  | cons a t ih =>
      by_cases ha : a.1 = e.advisor
      · simp [ha, ih]
      · simp [ha, ih]

lemma sum_map_update (m : List (String × AdvisorAcc)) (e : Entry)
    (hnd : (m.map Prod.fst).Nodup)
    (hmem : m.any (fun p => p.1 = e.advisor) = true) :
    accSumEntries (m.map (fun p =>
        if p.1 = e.advisor then (p.1, updateAcc p.2 e) else p)) =
      accSumEntries m + 1 ∧
    accSumHours (m.map (fun p =>
        if p.1 = e.advisor then (p.1, updateAcc p.2 e) else p)) =
      accSumHours m + e.hours := by
  induction m with
  | nil => simp at hmem
  | cons a t ih =>
      by_cases ha : a.1 = e.advisor
      · have htno : ∀ p ∈ t, p.1 ≠ e.advisor := by
          intro p hp hpe
          exact (List.nodup_cons.mp hnd).1
            (List.mem_map.mpr ⟨p, hp, hpe.trans ha.symm⟩)
        rw [List.map_cons, if_pos ha, map_update_no_match t e htno]
        constructor
        · unfold accSumEntries
          simp only [List.map_cons, List.sum_cons, updateAcc]
          ring
        · unfold accSumHours
          simp only [List.map_cons, List.sum_cons, updateAcc]
          ring
      · have hmem2 : t.any (fun p => p.1 = e.advisor) = true := by
          simp only [List.any_cons, Bool.or_eq_true] at hmem
          rcases hmem with h | h
          · exact absurd (by simpa using h) ha
          · exact h
        obtain ⟨ih1, ih2⟩ := ih (List.nodup_cons.mp hnd).2 hmem2
        rw [List.map_cons, if_neg ha]
        constructor
        · unfold accSumEntries at *
          simp only [List.map_cons, List.sum_cons]
          rw [ih1]
          ring
        · unfold accSumHours at *
          simp only [List.map_cons, List.sum_cons]
          rw [ih2]
          ring

lemma addEntryToStats_keys_nodup (m : List (String × AdvisorAcc)) (e : Entry)
    (hnd : (m.map Prod.fst).Nodup) :
    ((addEntryToStats m e).map Prod.fst).Nodup := by
  unfold addEntryToStats
  split_ifs with hany
  · rw [map_fst_update]
    exact hnd
  · rw [List.map_append]
    refine hnd.append (List.nodup_singleton _) ?_
    intro a ham hae
    have hae2 : a = e.advisor := by simpa using hae
    obtain ⟨p, hp, hpa⟩ := List.mem_map.mp ham
    have hno := List.any_eq_false.mp (Bool.eq_false_iff.mpr hany) p hp
    simp only [decide_eq_true_eq] at hno
    exact hno (hpa.trans hae2)

lemma addEntryToStats_sums (m : List (String × AdvisorAcc)) (e : Entry)
    (hnd : (m.map Prod.fst).Nodup) :
    accSumEntries (addEntryToStats m e) = accSumEntries m + 1 ∧
    accSumHours (addEntryToStats m e) = accSumHours m + e.hours := by
  unfold addEntryToStats
  split_ifs with hany
  · exact sum_map_update m e hnd hany
  · constructor
    · unfold accSumEntries
      rw [List.map_append, List.sum_append]
      simp [updateAcc]
    · unfold accSumHours
      rw [List.map_append, List.sum_append]
      simp [updateAcc]

lemma foldl_addEntryToStats_sums (l : List Entry)
    (m : List (String × AdvisorAcc)) (hnd : (m.map Prod.fst).Nodup) :
    accSumEntries (l.foldl addEntryToStats m) = accSumEntries m + l.length ∧
    accSumHours (l.foldl addEntryToStats m) =
      accSumHours m + (l.map Entry.hours).sum := by
  induction l generalizing m with
  | nil => simp
  | cons e t ih =>
      obtain ⟨h1, h2⟩ := addEntryToStats_sums m e hnd
      obtain ⟨g1, g2⟩ := ih (addEntryToStats m e) (addEntryToStats_keys_nodup m e hnd)
      rw [List.foldl_cons]
      constructor
      · rw [g1, h1, List.length_cons]
        ring
      · rw [g2, h2, List.map_cons, List.sum_cons]
        ring

/-- C10: `get_advisor_stats` partitions its input — the per-advisor
`entries` counters sum to the number of input records, and the per-advisor
`total_hours` values sum to the total hours over the input. -/
theorem statsByTechnician_partitions (l : List Entry) :
    statsSumEntries (get_advisor_stats l) = l.length ∧
    statsSumHours (get_advisor_stats l) = (l.map Entry.hours).sum := by
  obtain ⟨h1, h2⟩ := foldl_addEntryToStats_sums l [] (by simp)
  have k1 : statsSumEntries (get_advisor_stats l) =
      accSumEntries (l.foldl addEntryToStats []) := by
    unfold statsSumEntries get_advisor_stats accSumEntries
    rw [List.map_map]
    rfl
  have k2 : statsSumHours (get_advisor_stats l) =
      accSumHours (l.foldl addEntryToStats []) := by
    unfold statsSumHours get_advisor_stats accSumHours
    rw [List.map_map]
    rfl
  constructor
  · rw [k1, h1]
    simp [accSumEntries]
  · rw [k2, h2]
    simp [accSumHours]

end VHT
